import Mathlib

/-!
# Verification of the PhonePe transaction-insight ETL pipeline

Shallow embedding of `phonepe_dashboard_complete.py`: the three record
extractors (`process_aggregated_transaction_data`,
`process_aggregated_user_data`, `process_map_transaction_data`), the
database loader (`setup_database`) and the cached query service
(`get_data_from_db`), together with theorems settling the frozen claims
about them.

Modelling conventions:
* JSON values are the inductive `PhonePe.Json`; numbers are `Rat`
  (decimals in the source payloads).
* Python exceptions are the inductive `PhonePe.PyError`.  The source's
  per-file `try`/`except (json.JSONDecodeError, KeyError, IndexError)`
  catches exactly the errors with `PyError.caught = true`; `ValueError`
  (from `int(...)`) and `TypeError` (from subscripting / membership on a
  wrong type) are NOT caught and propagate out of the whole extractor.
* The filesystem is a value: a category's source directory is
  `Option (List StateDir)` (`none` = `os.path.exists` is false).  The
  `os.path.isdir` guards in the source skip non-directory entries
  silently, so such entries can never contribute records or errors and
  are not represented.  `os.listdir` order is the list order of the
  value.
* `print` diagnostics that report errors are modelled as `Report`
  values; progress prints ("Processing N states ...") are not modelled.
* Python's `int(s)` on the year/period name strings is modelled by
  `String.toInt?` (optional sign + digits); failure is `ValueError`.
-/

namespace PhonePe

/-- JSON values as parsed by `json.load`.  Numbers are rationals. -/
inductive Json where
  | null : Json
  | bool : Bool → Json
  | num : Rat → Json
  | str : String → Json
  | arr : List Json → Json
  | obj : List (String × Json) → Json

/-- Python errors that can arise in the extractors' `try` blocks. -/
inductive PyError where
  | jsonDecode : PyError
  | keyError : PyError
  | indexError : PyError
  | valueError : PyError
  | typeError : PyError
deriving Repr, DecidableEq

/-- Which errors the source's `except (json.JSONDecodeError, KeyError,
IndexError)` clause catches.  `ValueError` and `TypeError` are not in the
tuple and propagate out of the whole extractor. -/
def PyError.caught : PyError → Bool
  | .jsonDecode => true
  | .keyError => true
  | .indexError => true
  | .valueError => false
  | .typeError => false

/-- Whether `sub` occurs as a contiguous sublist of a character list. -/
def hasSubList (sub : List Char) : List Char → Bool
  | [] => sub.isEmpty
  | x :: xs => sub.isPrefixOf (x :: xs) || hasSubList sub xs

/-- Whether string `sub` occurs as a substring of `s`
(Python `sub in s` for strings). -/
def strContains (s sub : String) : Bool :=
  hasSubList sub.data s.data

/-- Whether `s` ends with `suffix` (Python `s.endswith(suffix)`). -/
def pyEndsWith (s suffix : String) : Bool :=
  suffix.data.isSuffixOf s.data

/-- Python membership `k in x` for a string `k`: key membership for a
dict, element membership for a list (a string equals only an equal
string), substring test for a string, `TypeError` otherwise. -/
def Json.containsKey (j : Json) (k : String) : Except PyError Bool :=
  match j with
  | .obj fs => .ok ((fs.lookup k).isSome)
  | .arr xs => .ok (xs.any (fun x => match x with | .str s => s == k | _ => false))
  | .str s => .ok (strContains s k)
  | _ => .error .typeError

/-- Python subscript `x[k]` for a string key `k`: dict lookup
(`KeyError` when absent), `TypeError` on any non-dict. -/
def Json.getKey (j : Json) (k : String) : Except PyError Json :=
  match j with
  | .obj fs =>
    match fs.lookup k with
    | some v => .ok v
    | none => .error .keyError
  | _ => .error .typeError

/-- Python subscript `x[0]`: list indexing (`IndexError` when out of
range), 1-character string for string indexing, `KeyError` for a dict
(a JSON-parsed dict has string keys, so the integer key is absent),
`TypeError` otherwise. -/
def Json.getIdx (j : Json) (i : Nat) : Except PyError Json :=
  match j with
  | .arr xs =>
    match xs.get? i with
    | some v => .ok v
    | none => .error .indexError
  | .str s =>
    match s.data.get? i with
    | some c => .ok (.str (String.mk [c]))
    | none => .error .indexError
  | .obj _ => .error .keyError
  | _ => .error .typeError

/-- Python iteration `for x in j`: elements of a list, characters of a
string (as 1-character strings), keys of a dict, `TypeError` otherwise. -/
def Json.iterate (j : Json) : Except PyError (List Json) :=
  match j with
  | .arr xs => .ok xs
  | .str s => .ok (s.data.map (fun c => .str (String.mk [c])))
  | .obj fs => .ok (fs.map (fun p => .str p.1))
  | _ => .error .typeError

/-- Python truthiness of a JSON value (`if x:`). -/
def Json.truthy : Json → Bool
  | .null => false
  | .bool b => b
  | .num n => n != 0
  | .str s => s ≠ ""
  | .arr xs => !xs.isEmpty
  | .obj fs => !fs.isEmpty

/-- Decimal value of a digit run; `none` when a character is not a
digit. -/
def natOfDigits (acc : Nat) : List Char → Option Nat
  | [] => some acc
  | c :: cs =>
    if c.isDigit then natOfDigits (acc * 10 + (c.toNat - 48)) cs
    else none

/-- Python `int(s)` on a name string: optional sign followed by at least
one digit, else `ValueError`. -/
def pyInt (s : String) : Except PyError Int :=
  let signed : List Char → Except PyError Int := fun cs =>
    match cs with
    | [] => .error .valueError
    | _ :: _ =>
      match natOfDigits 0 cs with
      | some n => .ok (n : Int)
      | none => .error .valueError
  match s.data with
  | '-' :: cs =>
    match signed cs with
    | .ok n => .ok (-n)
    | .error e => .error e
  | '+' :: cs => signed cs
  | cs => signed cs

/-- `quarter_file.split('.')[0]`: the characters before the first `'.'`
(the whole name when there is no dot; never raises). -/
def stem (fileName : String) : String :=
  String.mk (fileName.data.takeWhile (fun c => !(c == '.')))

/-! ## Output record types (rows appended by the extractors)

Fields that the source copies straight out of the payload keep their
JSON value; `year` and `quarter` are `Int` because the source converts
them with `int(...)`. -/

/-- A row of the `aggregated_transaction` dataset (lines 83-90). -/
structure TransactionRecord where
  state : String
  year : Int
  quarter : Int
  transaction_type : Json
  transaction_count : Json
  transaction_amount : Json

/-- A row of the `aggregated_user` dataset (lines 131-151). -/
structure UserDeviceRecord where
  state : String
  year : Int
  quarter : Int
  registered_users : Json
  app_opens : Json
  brand : Json
  count : Json
  percentage : Json

/-- A row of the `map_transaction` dataset (lines 189-196). -/
structure MapTransactionRecord where
  state : String
  year : Int
  quarter : Int
  district : Json
  transaction_count : Json
  transaction_amount : Json

/-- A diagnostic printed by an extractor. -/
inductive Report where
  | pathNotFound (path : String) : Report
  | fileError (path : String) (e : PyError) : Report

/-- Outcome of the `try` body for one file: the records appended to the
shared `data` list before completion or failure, and the error (if any)
that ended the body.  A caught error keeps the appended records; an
uncaught one propagates out of the whole extractor. -/
structure FileRes (R : Type) where
  records : List R
  error : Option PyError

/-- Run a per-entry computation over the payload's entry list, in order,
stopping at the first error; records produced before the error survive
(they were already appended to the extractor's `data` list). -/
def procEntryList {R : Type} (f : Json → Except PyError (Option R)) :
    List Json → FileRes R
  | [] => ⟨[], none⟩
  | t :: ts =>
    match f t with
    | .error e => ⟨[], some e⟩
    | .ok none => procEntryList f ts
    | .ok (some r) =>
      let rest := procEntryList f ts
      ⟨r :: rest.records, rest.error⟩

/-! ## Per-entry and per-file processing: aggregated transaction
(lines 77-93 of the source) -/

/-- Body of the entry loop (lines 81-90): if the entry has a truthy
`paymentInstruments`, build the record.  The dict literal's values are
evaluated in source order: `int(year)`, `int(quarter_file.split('.')[0])`,
`transaction['name']`, `paymentInstruments[0]['count']`,
`paymentInstruments[0]['amount']`. -/
def procTransEntry (state yearName fileName : String) (t : Json) :
    Except PyError (Option TransactionRecord) := do
  let h ← t.containsKey "paymentInstruments"
  if h then
    let pi ← t.getKey "paymentInstruments"
    if pi.truthy then
      let y ← pyInt yearName
      let q ← pyInt (stem fileName)
      let nm ← t.getKey "name"
      let i0 ← pi.getIdx 0
      let c ← i0.getKey "count"
      let a ← i0.getKey "amount"
      pure (some ⟨state, y, q, nm, c, a⟩)
    else
      pure none
  else
    pure none

/-- The guard `'data' in d and 'transactionData' in d['data']` followed by
the loop header `d['data']['transactionData']` (lines 80-81): `some
entries` when the guard holds, `none` when it fails, error when either
raises. -/
def transEntries (d : Json) : Except PyError (Option (List Json)) := do
  let h1 ← d.containsKey "data"
  if h1 then
    let dd ← d.getKey "data"
    let h2 ← dd.containsKey "transactionData"
    if h2 then
      let td ← dd.getKey "transactionData"
      let es ← td.iterate
      pure (some es)
    else
      pure none
  else
    pure none

/-- The whole `try` body for one aggregated-transaction file
(lines 78-90).  `content = none` models a file whose JSON fails to parse
(`json.JSONDecodeError` from `json.load`). -/
def procTransFile (state yearName fileName : String) (content : Option Json) :
    FileRes TransactionRecord :=
  match content with
  | none => ⟨[], some .jsonDecode⟩
  | some d =>
    match transEntries d with
    | .error e => ⟨[], some e⟩
    | .ok none => ⟨[], none⟩
    | .ok (some es) => procEntryList (procTransEntry state yearName fileName) es

/-! ## Per-entry and per-file processing: aggregated user
(lines 122-154 of the source) -/

/-- Body of the device loop (lines 130-140): dict values in source
order: `int(year)`, `int(...)`, the already-computed totals, then
`device_data['brand']`, `['count']`, `['percentage']`. -/
def procUserDevice (state yearName fileName : String) (ru ao : Json) (dv : Json) :
    Except PyError (Option UserDeviceRecord) := do
  let y ← pyInt yearName
  let q ← pyInt (stem fileName)
  let b ← dv.getKey "brand"
  let c ← dv.getKey "count"
  let p ← dv.getKey "percentage"
  pure (some ⟨state, y, q, ru, ao, b, c, p⟩)

/-- The `else` branch (lines 141-151): the single sentinel row with
brand `'Other'`, count `0`, percentage `0`. -/
def userOtherRow (state yearName fileName : String) (ru ao : Json) :
    Except PyError UserDeviceRecord := do
  let y ← pyInt yearName
  let q ← pyInt (stem fileName)
  pure ⟨state, y, q, ru, ao, .str "Other", .num 0, .num 0⟩

/-- The user-file header (lines 125-129): check
`'data' in d and 'aggregated' in d['data']`, read
`registeredUsers`/`appOpens`, then evaluate
`'usersByDevice' in d['data'] and d['data']['usersByDevice']`.
Returns `none` when the outer guard fails, otherwise the totals plus
`some devices` (device loop runs) or `none` (sentinel branch). -/
def userHeader (d : Json) :
    Except PyError (Option (Json × Json × Option (List Json))) := do
  let h1 ← d.containsKey "data"
  if h1 then
    let dd ← d.getKey "data"
    let h2 ← dd.containsKey "aggregated"
    if h2 then
      let ag ← dd.getKey "aggregated"
      let ru ← ag.getKey "registeredUsers"
      let ao ← ag.getKey "appOpens"
      let h3 ← dd.containsKey "usersByDevice"
      if h3 then
        let ubd ← dd.getKey "usersByDevice"
        if ubd.truthy then
          let devs ← ubd.iterate
          pure (some (ru, ao, some devs))
        else
          pure (some (ru, ao, none))
      else
        pure (some (ru, ao, none))
    else
      pure none
  else
    pure none

/-- The whole `try` body for one aggregated-user file (lines 123-151). -/
def procUserFile (state yearName fileName : String) (content : Option Json) :
    FileRes UserDeviceRecord :=
  match content with
  | none => ⟨[], some .jsonDecode⟩
  | some d =>
    match userHeader d with
    | .error e => ⟨[], some e⟩
    | .ok none => ⟨[], none⟩
    | .ok (some (ru, ao, some devs)) =>
      procEntryList (procUserDevice state yearName fileName ru ao) devs
    | .ok (some (ru, ao, none)) =>
      match userOtherRow state yearName fileName ru ao with
      | .ok r => ⟨[r], none⟩
      | .error e => ⟨[], some e⟩

/-! ## Per-entry and per-file processing: map transaction
(lines 183-199 of the source) -/

/-- Body of the district loop (lines 187-196). -/
def procMapEntry (state yearName fileName : String) (t : Json) :
    Except PyError (Option MapTransactionRecord) := do
  let h ← t.containsKey "metric"
  if h then
    let m ← t.getKey "metric"
    if m.truthy then
      let y ← pyInt yearName
      let q ← pyInt (stem fileName)
      let nm ← t.getKey "name"
      let i0 ← m.getIdx 0
      let c ← i0.getKey "count"
      let a ← i0.getKey "amount"
      pure (some ⟨state, y, q, nm, c, a⟩)
    else
      pure none
  else
    pure none

/-- The guard `'data' in d and 'hoverDataList' in d['data']` and loop
header (lines 186-187). -/
def mapEntries (d : Json) : Except PyError (Option (List Json)) := do
  let h1 ← d.containsKey "data"
  if h1 then
    let dd ← d.getKey "data"
    let h2 ← dd.containsKey "hoverDataList"
    if h2 then
      let hd ← dd.getKey "hoverDataList"
      let es ← hd.iterate
      pure (some es)
    else
      pure none
  else
    pure none

/-- The whole `try` body for one map-transaction file (lines 184-196). -/
def procMapFile (state yearName fileName : String) (content : Option Json) :
    FileRes MapTransactionRecord :=
  match content with
  | none => ⟨[], some .jsonDecode⟩
  | some d =>
    match mapEntries d with
    | .error e => ⟨[], some e⟩
    | .ok none => ⟨[], none⟩
    | .ok (some es) => procEntryList (procMapEntry state yearName fileName) es

/-! ## The directory walk shared by the three extractors

`states = os.listdir(path)`, then per state dir `years = os.listdir`,
then per year dir the `.json` files.  Non-directory entries are skipped
by the `os.path.isdir` guards and never contribute records or errors, so
the tree value holds only the directories and the candidate files. -/

/-- A period file: its name and its parsed JSON content (`none` when the
file's JSON is malformed and `json.load` raises). -/
structure QFile where
  name : String
  content : Option Json

/-- A year directory. -/
structure YearDir where
  name : String
  files : List QFile

/-- A state (region) directory. -/
structure StateDir where
  name : String
  years : List YearDir

/-- A per-file processor: state name, year name, file name, content. -/
def PerFile (R : Type) : Type :=
  String → String → String → Option Json → FileRes R

/-- The file loop (lines 74-93): process each `.json` file; a caught
error is reported (`print`) and the loop continues, keeping the records
the file appended before failing; an uncaught error propagates, losing
the whole extraction. -/
def procFiles {R : Type} (pf : PerFile R) (path state yearName : String) :
    List QFile → Except PyError (List R × List Report)
  | [] => .ok ([], [])
  | f :: fs =>
    if pyEndsWith f.name ".json" then
      let res := pf state yearName f.name f.content
      match res.error with
      | none =>
        match procFiles pf path state yearName fs with
        | .error e => .error e
        | .ok (rs, reps) => .ok (res.records ++ rs, reps)
      | some e =>
        if e.caught then
          match procFiles pf path state yearName fs with
          | .error e2 => .error e2
          | .ok (rs, reps) =>
            .ok (res.records ++ rs,
              .fileError (path ++ "/" ++ state ++ "/" ++ yearName ++ "/" ++ f.name) e :: reps)
        else
          .error e
    else
      procFiles pf path state yearName fs

/-- The year loop (lines 69-93). -/
def procYears {R : Type} (pf : PerFile R) (path state : String) :
    List YearDir → Except PyError (List R × List Report)
  | [] => .ok ([], [])
  | y :: ys =>
    match procFiles pf path state y.name y.files with
    | .error e => .error e
    | .ok (rs, reps) =>
      match procYears pf path state ys with
      | .error e => .error e
      | .ok (rs2, reps2) => .ok (rs ++ rs2, reps ++ reps2)

/-- The state loop (lines 63-93). -/
def procStates {R : Type} (pf : PerFile R) (path : String) :
    List StateDir → Except PyError (List R × List Report)
  | [] => .ok ([], [])
  | s :: ss =>
    match procYears pf path s.name s.years with
    | .error e => .error e
    | .ok (rs, reps) =>
      match procStates pf path ss with
      | .error e => .error e
      | .ok (rs2, reps2) => .ok (rs ++ rs2, reps ++ reps2)

/-! ## The three extractors (lines 51-95, 97-156, 158-201)

A category's source directory is `Option (List StateDir)`: `none` models
`os.path.exists(path)` being false.  The result is `.error e` when an
uncaught exception `e` propagates out of the function (the collected
records are lost), and `.ok (records, reports)` otherwise. -/

/-- `process_aggregated_transaction_data` (lines 51-95).  When the path
is missing it prints "Path not found" (line 57) and returns an empty
DataFrame. -/
def process_aggregated_transaction_data (base_path : String)
    (src : Option (List StateDir)) :
    Except PyError (List TransactionRecord × List Report) :=
  let path := base_path ++ "/data/aggregated/transaction/country/india/state"
  match src with
  | none => .ok ([], [.pathNotFound path])
  | some states => procStates procTransFile path states

/-- `process_aggregated_user_data` (lines 97-156).  When the path is
missing it returns an empty DataFrame with no diagnostic (lines 102-103
have no `print`). -/
def process_aggregated_user_data (base_path : String)
    (src : Option (List StateDir)) :
    Except PyError (List UserDeviceRecord × List Report) :=
  let path := base_path ++ "/data/aggregated/user/country/india/state"
  match src with
  | none => .ok ([], [])
  | some states => procStates procUserFile path states

/-- `process_map_transaction_data` (lines 158-201).  When the path is
missing it returns an empty DataFrame with no diagnostic (lines 163-164
have no `print`). -/
def process_map_transaction_data (base_path : String)
    (src : Option (List StateDir)) :
    Except PyError (List MapTransactionRecord × List Report) :=
  let path := base_path ++ "/data/map/transaction/hover/country/india/state"
  match src with
  | none => .ok ([], [])
  | some states => procStates procMapFile path states

/-! ## Relational store loader (`setup_database`, lines 203-244) -/

/-- The cloned repository: the three category source directories.  The
whole value is `Option` because `setup_database` first checks
`os.path.exists(REPO_DIR)` (line 208). -/
structure Repo where
  transSrc : Option (List StateDir)
  userSrc : Option (List StateDir)
  mapSrc : Option (List StateDir)

/-- The SQLite database: each table is `none` when absent. -/
structure Database where
  aggregated_transaction : Option (List TransactionRecord)
  aggregated_user : Option (List UserDeviceRecord)
  map_transaction : Option (List MapTransactionRecord)

/-- One `if not df.empty: df.to_sql(..., if_exists="replace", ...)` step
(lines 219-220 etc.): a non-empty dataset drops and recreates the table
with exactly the new rows; an empty dataset leaves the table untouched. -/
def load_table {α : Type} (df : List α) (tbl : Option (List α)) : Option (List α) :=
  if df.isEmpty then tbl else some df

/-- `REPO_DIR` (line 16), the `base_path` passed by `setup_database`. -/
def REPO_DIR : String := "pulse"

/-- `setup_database` (lines 203-244) on a starting database state.
Returns the function's boolean result and the database afterwards.  The
`except Exception` at line 241 catches an exception from any stage and
returns `False`, keeping the tables already written by earlier stages. -/
def setup_database (repo : Option Repo) (db : Database) : Bool × Database :=
  match repo with
  | none => (false, db)
  | some r =>
    match process_aggregated_transaction_data REPO_DIR r.transSrc with
    | .error _ => (false, db)
    | .ok (ts, _) =>
      let db1 : Database :=
        { db with aggregated_transaction := load_table ts db.aggregated_transaction }
      match process_aggregated_user_data REPO_DIR r.userSrc with
      | .error _ => (false, db1)
      | .ok (us, _) =>
        let db2 : Database :=
          { db1 with aggregated_user := load_table us db1.aggregated_user }
        match process_map_transaction_data REPO_DIR r.mapSrc with
        | .error _ => (false, db2)
        | .ok (ms, _) =>
          let db3 : Database :=
            { db2 with map_transaction := load_table ms db2.map_transaction }
          (true, db3)

/-! ## Query service (`get_data_from_db`, lines 246-256) -/

/-- A query result: a DataFrame as a list of rows. -/
abbrev Df := List (List Json)

/-- The `@st.cache_data` store of the serving process: previously
returned results keyed by the function's argument, i.e. the exact query
text. -/
abbrev QueryCache := List (String × Df)

/-- `get_data_from_db` (lines 246-256).  `runQuery` models
`pd.read_sql_query` against the SQLite store (an external dependency):
`.error` is any raised database exception.  Returns the DataFrame, the
cache afterwards, and the `st.error` message if one was shown.  On a
cache hit the body does not run at all; on a miss the returned value is
stored — including the empty DataFrame returned by the `except` branch.
The function always returns (the `try`/`except` swallows the exception),
so no exception propagates to the serving process. -/
def get_data_from_db (runQuery : String → Database → Except String Df)
    (db : Database) (cache : QueryCache) (query : String) :
    Df × QueryCache × Option String :=
  match cache.lookup query with
  | some df => (df, cache, none)
  | none =>
    match runQuery query db with
    | .ok df => (df, (query, df) :: cache, none)
    | .error e => ([], (query, []) :: cache, some ("Database error: " ++ e))

/-! ## Spec-side characterisations

These definitions restate, independently of the extractor code, which
payload shapes qualify and what record each entry should produce; the
claim theorems equate the extractors with them. -/

/-- The qualifying condition of the claim: the entry carries a
`paymentInstruments` key whose value is truthy (a non-empty list, once
well-formed). -/
def qualifiesTrans (e : Json) : Bool :=
  match e with
  | .obj fs =>
    match fs.lookup "paymentInstruments" with
    | some v => v.truthy
    | none => false
  | _ => false

/-- Well-formedness of one transaction entry: it is a dict with a
`name`; if it has a truthy `paymentInstruments` the first instrument is
a dict with `count` and `amount`. -/
def validTransEntry (e : Json) : Bool :=
  match e with
  | .obj fs =>
    (fs.lookup "name").isSome &&
    (match fs.lookup "paymentInstruments" with
     | none => true
     | some v =>
       if v.truthy then
         match v with
         | .arr (Json.obj ifs :: _) =>
           (ifs.lookup "count").isSome && (ifs.lookup "amount").isSome
         | _ => false
       else true)
  | _ => false

/-- The record a qualifying entry should produce: category is the
entry's `name`, count/amount are the FIRST instrument's `count` and
`amount`; a non-qualifying entry (no instrument key, or an empty —
falsy — instrument list) produces nothing. -/
def mkTransRec (state : String) (y q : Int) (e : Json) : Option TransactionRecord :=
  match e with
  | .obj fs =>
    match fs.lookup "paymentInstruments" with
    | none => none
    | some v =>
      if v.truthy then
        match v, fs.lookup "name" with
        | .arr (Json.obj ifs :: _), some nm =>
          match ifs.lookup "count", ifs.lookup "amount" with
          | some c, some a => some ⟨state, y, q, nm, c, a⟩
          | _, _ => none
        | _, _ => none
      else none
  | _ => none

/-! ## Generic lemmas about the entry loop -/

/-- Bind on a successful `Except` computation. -/
@[simp] theorem exceptBind_ok {ε α β : Type} (a : α) (f : α → Except ε β) :
    (Except.ok a >>= f) = f a := rfl

/-- Bind on a failed `Except` computation. -/
@[simp] theorem exceptBind_err {ε α β : Type} (e : ε) (f : α → Except ε β) :
    ((Except.error e : Except ε α) >>= f) = Except.error e := rfl

/-- Map on a successful `Except` computation. -/
@[simp] theorem exceptMap_ok {ε α β : Type} (f : α → β) (a : α) :
    (f <$> (Except.ok a : Except ε α)) = Except.ok (f a) := rfl

/-- Map on a failed `Except` computation. -/
@[simp] theorem exceptMap_err {ε α β : Type} (f : α → β) (e : ε) :
    (f <$> (Except.error e : Except ε α)) = (Except.error e : Except ε β) := rfl

/-- `pure` on `Except` is `ok`. -/
@[simp] theorem exceptPure (ε α : Type) (a : α) :
    (pure a : Except ε α) = Except.ok a := rfl

/-- When every entry satisfies `p` and `f` agrees with `g` on such
entries, the entry loop completes without error and produces exactly
`filterMap g`. -/
theorem procEntryList_all_ok {R : Type} (f : Json → Except PyError (Option R))
    (g : Json → Option R) (p : Json → Bool)
    (hfg : ∀ e, p e = true → f e = .ok (g e)) :
    ∀ entries : List Json, entries.all p = true →
      procEntryList f entries = ⟨entries.filterMap g, none⟩ := by
  intro entries hall
  induction entries with
  | nil => rfl
  | cons t ts ih =>
    rw [List.all_cons, Bool.and_eq_true] at hall
    have h1 := hfg t hall.1
    have h2 := ih hall.2
    cases hgt : g t with
    | none => simp [procEntryList, h1, hgt, h2, List.filterMap_cons]
    | some r => simp [procEntryList, h1, hgt, h2, List.filterMap_cons]

/-- On a well-formed entry the loop body computes `mkTransRec`. -/
theorem procTransEntry_valid (state yearName fileName : String) (y q : Int)
    (hy : pyInt yearName = .ok y) (hq : pyInt (stem fileName) = .ok q)
    (e : Json) (hv : validTransEntry e = true) :
    procTransEntry state yearName fileName e = .ok (mkTransRec state y q e) := by
  match e with
  | .null | .bool _ | .num _ | .str _ | .arr _ => simp [validTransEntry] at hv
  | .obj fs =>
    rw [validTransEntry, Bool.and_eq_true] at hv
    obtain ⟨hnm, hrest⟩ := hv
    rw [Option.isSome_iff_exists] at hnm
    obtain ⟨nm, hnm⟩ := hnm
    cases hpi : fs.lookup "paymentInstruments" with
    | none =>
      simp [procTransEntry, Json.containsKey, hpi, mkTransRec]
    | some v =>
      rw [hpi] at hrest
      simp only at hrest
      cases htr : v.truthy with
      | false =>
        simp [procTransEntry, Json.containsKey, Json.getKey, hpi, htr, mkTransRec]
      | true =>
        rw [htr] at hrest
        simp only [if_true] at hrest
        match v, htr, hrest with
        | .arr (Json.obj ifs :: rest), htr, hrest =>
          rw [Bool.and_eq_true, Option.isSome_iff_exists, Option.isSome_iff_exists] at hrest
          obtain ⟨⟨c, hc⟩, a, ha⟩ := hrest
          simp [procTransEntry, Json.containsKey, Json.getKey, Json.getIdx, Json.truthy,
            hpi, hnm, hc, ha, hy, hq, mkTransRec]

/-- For a well-formed entry, `mkTransRec` produces a record exactly when
the entry qualifies (truthy `paymentInstruments`). -/
theorem mkTransRec_isSome (state : String) (y q : Int) (e : Json)
    (hv : validTransEntry e = true) :
    (mkTransRec state y q e).isSome = qualifiesTrans e := by
  match e with
  | .null | .bool _ | .num _ | .str _ | .arr _ => simp [validTransEntry] at hv
  | .obj fs =>
    rw [validTransEntry, Bool.and_eq_true] at hv
    obtain ⟨hnm, hrest⟩ := hv
    cases hpi : fs.lookup "paymentInstruments" with
    | none => simp [mkTransRec, qualifiesTrans, hpi]
    | some v =>
      rw [hpi] at hrest
      simp only at hrest
      cases htr : v.truthy with
      | false => simp [mkTransRec, qualifiesTrans, hpi, htr]
      | true =>
        rw [htr] at hrest
        simp only [if_true] at hrest
        match v, htr, hrest with
        | .arr (Json.obj ifs :: rest), htr, hrest =>
          rw [Bool.and_eq_true, Option.isSome_iff_exists, Option.isSome_iff_exists] at hrest
          obtain ⟨⟨c, hc⟩, a, ha⟩ := hrest
          rw [Option.isSome_iff_exists] at hnm
          obtain ⟨nm, hnm⟩ := hnm
          simp [mkTransRec, qualifiesTrans, hpi, htr, hnm, hc, ha]

/-- C1: for every well-formed transaction-aggregate payload — a dict
whose `data.transactionData` is a list of well-formed entries — and
successfully parsed year/period names, the per-file extraction emits
exactly one `TransactionRecord` per entry whose `paymentInstruments`
list is non-empty (truthy), with `transaction_count`/`transaction_amount`
taken from the FIRST instrument and `transaction_type` from the entry's
`name` (this is what `mkTransRec` states); an entry with an empty
instrument list (or none at all) contributes zero records, as the second
conjunct makes explicit. -/
theorem C1_transaction_extraction (state yearName fileName : String) (y q : Int)
    (dfs ddfs : List (String × Json)) (entries : List Json)
    (hy : pyInt yearName = .ok y) (hq : pyInt (stem fileName) = .ok q)
    (hdata : dfs.lookup "data" = some (.obj ddfs))
    (htd : ddfs.lookup "transactionData" = some (.arr entries))
    (hval : entries.all validTransEntry = true) :
    procTransFile state yearName fileName (some (.obj dfs)) =
      ⟨entries.filterMap (mkTransRec state y q), none⟩ ∧
    ∀ e ∈ entries, (mkTransRec state y q e).isSome = qualifiesTrans e := by
  constructor
  · have hTE : transEntries (.obj dfs) = .ok (some entries) := by
      simp [transEntries, Json.containsKey, Json.getKey, Json.iterate, hdata, htd]
    rw [procTransFile, hTE]
    exact procEntryList_all_ok _ (mkTransRec state y q) validTransEntry
      (procTransEntry_valid state yearName fileName y q hy hq) entries hval
  · intro e he
    exact mkTransRec_isSome state y q e (List.all_eq_true.mp hval e he)

/-- The worked example from the specification: one entry, category
`Recharge`, two instruments of which only the first must be read. -/
def egTransEntry : Json :=
  .obj [("name", .str "Recharge"), ("paymentInstruments", .arr [
    .obj [("count", .num 100), ("amount", .num 5000)],
    .obj [("count", .num 1), ("amount", .num 1)]])]

/-- The worked example payload from the specification. -/
def egTransPayload : List (String × Json) :=
  [("data", .obj [("transactionData", .arr [egTransEntry])])]

/-- C1 witness: the hypotheses hold at the specification's worked
example and the record extracted uses the first instrument only. -/
theorem C1_transaction_extraction_witness :
    [egTransEntry].all validTransEntry = true ∧
    procTransFile "maharashtra" "2023" "1.json" (some (.obj egTransPayload)) =
      ⟨[egTransEntry].filterMap (mkTransRec "maharashtra" 2023 1), none⟩ ∧
    [egTransEntry].filterMap (mkTransRec "maharashtra" 2023 1) =
      [⟨"maharashtra", 2023, 1, .str "Recharge", .num 100, .num 5000⟩] :=
  ⟨by rfl,
   (C1_transaction_extraction "maharashtra" "2023" "1.json" 2023 1
     egTransPayload [("transactionData", .arr [egTransEntry])] [egTransEntry]
     (by rfl) (by rfl) (by rfl) (by rfl) (by rfl)).1,
   by rfl⟩

/-! ## Spec-side characterisation of the user extractor -/

/-- Well-formedness of one device-breakdown entry: a dict carrying
`brand`, `count` and `percentage`. -/
def validDevice (dv : Json) : Bool :=
  match dv with
  | .obj fs =>
    (fs.lookup "brand").isSome && (fs.lookup "count").isSome &&
      (fs.lookup "percentage").isSome
  | _ => false

/-- Field access on a well-formed dict (defaults to `null`, never hit
under `validDevice`). -/
def lookupD (dv : Json) (k : String) : Json :=
  match dv with
  | .obj fs => (fs.lookup k).getD .null
  | _ => .null

/-- The record one device entry should produce: the payload totals plus
the entry's own `brand`/`count`/`percentage`. -/
def mkDeviceRec (state : String) (y q : Int) (ru ao : Json) (dv : Json) :
    UserDeviceRecord :=
  ⟨state, y, q, ru, ao, lookupD dv "brand", lookupD dv "count", lookupD dv "percentage"⟩

/-- The sentinel record for a payload without a device breakdown:
brand `"Other"`, count `0`, percentage `0`, carrying the totals. -/
def otherRec (state : String) (y q : Int) (ru ao : Json) : UserDeviceRecord :=
  ⟨state, y, q, ru, ao, .str "Other", .num 0, .num 0⟩

/-- Well-formedness of the (optional) `usersByDevice` value: absent, or
falsy (e.g. the empty list), or a list of well-formed device entries. -/
def validBreakdown : Option Json → Bool
  | none => true
  | some v =>
    if v.truthy then
      match v with
      | .arr devs => devs.all validDevice
      | _ => false
    else true

/-- The rows a user payload should produce, as a function of its
`usersByDevice` value: one row per brand entry when the breakdown is a
non-empty list, otherwise exactly the single `"Other"` sentinel row. -/
def expectedUserRows (state : String) (y q : Int) (ru ao : Json) :
    Option Json → List UserDeviceRecord
  | none => [otherRec state y q ru ao]
  | some v =>
    if v.truthy then
      match v with
      | .arr devs => devs.map (mkDeviceRec state y q ru ao)
      | _ => []
    else [otherRec state y q ru ao]

/-- On a well-formed device entry the loop body computes `mkDeviceRec`. -/
theorem procUserDevice_valid (state yearName fileName : String) (y q : Int)
    (ru ao : Json)
    (hy : pyInt yearName = .ok y) (hq : pyInt (stem fileName) = .ok q)
    (dv : Json) (hv : validDevice dv = true) :
    procUserDevice state yearName fileName ru ao dv =
      .ok (some (mkDeviceRec state y q ru ao dv)) := by
  match dv with
  | .null | .bool _ | .num _ | .str _ | .arr _ => simp [validDevice] at hv
  | .obj fs =>
    rw [validDevice, Bool.and_eq_true, Bool.and_eq_true] at hv
    obtain ⟨⟨hb, hc⟩, hp⟩ := hv
    rw [Option.isSome_iff_exists] at hb hc hp
    obtain ⟨b, hb⟩ := hb
    obtain ⟨c, hc⟩ := hc
    obtain ⟨p, hp⟩ := hp
    simp [procUserDevice, Json.getKey, hb, hc, hp, hy, hq, mkDeviceRec, lookupD]

/-- C4: for every user payload whose `data.aggregated` dict carries
`registeredUsers` and `appOpens`, and whose `usersByDevice` value is
absent, falsy (e.g. an empty list) or a list of well-formed brand
entries: when the breakdown list is non-empty the extractor emits one
`UserDeviceRecord` per brand entry, each repeating the two totals;
otherwise it emits exactly one record with brand `"Other"`, count `0`,
percentage `0` and the payload's totals (`expectedUserRows` states both
cases). -/
theorem C4_user_extraction (state yearName fileName : String) (y q : Int)
    (dfs ddfs agfs : List (String × Json)) (ru ao : Json)
    (hy : pyInt yearName = .ok y) (hq : pyInt (stem fileName) = .ok q)
    (hdata : dfs.lookup "data" = some (.obj ddfs))
    (hag : ddfs.lookup "aggregated" = some (.obj agfs))
    (hru : agfs.lookup "registeredUsers" = some ru)
    (hao : agfs.lookup "appOpens" = some ao)
    (hval : validBreakdown (ddfs.lookup "usersByDevice") = true) :
    procUserFile state yearName fileName (some (.obj dfs)) =
      ⟨expectedUserRows state y q ru ao (ddfs.lookup "usersByDevice"), none⟩ := by
  cases hubd : ddfs.lookup "usersByDevice" with
  | none =>
    have hH : userHeader (.obj dfs) = .ok (some (ru, ao, none)) := by
      simp [userHeader, Json.containsKey, Json.getKey, hdata, hag, hru, hao, hubd]
    rw [procUserFile, hH]
    simp [userOtherRow, hy, hq, expectedUserRows, otherRec]
  | some v =>
    rw [hubd] at hval
    simp only [validBreakdown] at hval
    cases htr : v.truthy with
    | false =>
      have hH : userHeader (.obj dfs) = .ok (some (ru, ao, none)) := by
        simp [userHeader, Json.containsKey, Json.getKey, hdata, hag, hru, hao, hubd, htr]
      rw [procUserFile, hH]
      simp [userOtherRow, hy, hq, expectedUserRows, otherRec, htr]
    | true =>
      rw [htr] at hval
      simp only [if_true] at hval
      match v, htr, hval with
      | .arr devs, htr, hval =>
        have hH : userHeader (.obj dfs) = .ok (some (ru, ao, some devs)) := by
          simp [userHeader, Json.containsKey, Json.getKey, Json.iterate,
            hdata, hag, hru, hao, hubd, htr]
        simp only at hval
        rw [procUserFile, hH]
        simp only
        rw [procEntryList_all_ok (procUserDevice state yearName fileName ru ao)
          (fun dv => some (mkDeviceRec state y q ru ao dv)) validDevice
          (fun dv hdv => procUserDevice_valid state yearName fileName y q ru ao hy hq dv hdv)
          devs hval]
        simp only [expectedUserRows, htr, if_true, FileRes.mk.injEq, and_true]
        exact congrFun (List.filterMap_eq_map (mkDeviceRec state y q ru ao)) devs

/-- A user payload with totals but no `usersByDevice` breakdown. -/
def egUserDataFields : List (String × Json) :=
  [("aggregated", .obj [("registeredUsers", .num 7216), ("appOpens", .num 12)])]

/-- The full user payload for the C4 witness. -/
def egUserPayload : List (String × Json) := [("data", .obj egUserDataFields)]

/-- C4 witness: a payload with totals and no breakdown yields exactly
the `"Other"` sentinel row carrying the totals. -/
theorem C4_user_extraction_witness :
    validBreakdown (egUserDataFields.lookup "usersByDevice") = true ∧
    procUserFile "goa" "2021" "2.json" (some (.obj egUserPayload)) =
      ⟨expectedUserRows "goa" 2021 2 (.num 7216) (.num 12)
        (egUserDataFields.lookup "usersByDevice"), none⟩ ∧
    expectedUserRows "goa" 2021 2 (.num 7216) (.num 12)
        (egUserDataFields.lookup "usersByDevice") =
      [⟨"goa", 2021, 2, .num 7216, .num 12, .str "Other", .num 0, .num 0⟩] :=
  ⟨by rfl,
   C4_user_extraction "goa" "2021" "2.json" 2021 2
     egUserPayload egUserDataFields
     [("registeredUsers", .num 7216), ("appOpens", .num 12)]
     (.num 7216) (.num 12)
     (by rfl) (by rfl) (by rfl) (by rfl) (by rfl) (by rfl) (by rfl),
   by rfl⟩

/-! ## C2: what a failing file contributes -/

/-- A well-formed device entry. -/
def c2GoodDevice : Json :=
  .obj [("brand", .str "Xiaomi"), ("count", .num 10), ("percentage", .num 25)]

/-- A device entry missing `brand`: reading it raises `KeyError` after
the previous entry's record was already appended. -/
def c2BadDevice : Json :=
  .obj [("count", .num 5), ("percentage", .num 75)]

/-- A user payload whose second device entry is malformed. -/
def c2Payload : Json :=
  .obj [("data", .obj [
    ("aggregated", .obj [("registeredUsers", .num 100), ("appOpens", .num 200)]),
    ("usersByDevice", .arr [c2GoodDevice, c2BadDevice])])]

/-- A source tree holding exactly the file with the half-malformed
payload. -/
def c2Tree : List StateDir := [⟨"kerala", [⟨"2022", [⟨"1.json", some c2Payload⟩]⟩]⟩]

/-- The record the failing file emits before its `KeyError`. -/
def c2XiaomiRec : UserDeviceRecord :=
  ⟨"kerala", 2022, 1, .num 100, .num 200, .str "Xiaomi", .num 10, .num 25⟩

/-- C2 counterexample: a file whose extraction fails with `KeyError`
(missing `brand` on the second device entry) — the error is caught and
reported — nevertheless contributes ONE record to the dataset: the row
appended before the failure survives, refuting "that file contributes
zero records". -/
theorem C2_counterexample_partial_rows :
    process_aggregated_user_data REPO_DIR (some c2Tree) =
      .ok ([c2XiaomiRec],
        [.fileError "pulse/data/aggregated/user/country/india/state/kerala/2022/1.json"
          .keyError]) := by rfl

/-- C2 amended: a file whose extraction fails with a caught error
(malformed JSON, missing key, or index error) contributes exactly the
records it emitted before the failure point — zero when the failure
precedes any record — the error is reported, and extraction of all the
other files continues. -/
theorem C2_amended_partial_contribution (stateName yearName : String)
    (f : QFile) (fs : List QFile) (rs rs2 : List UserDeviceRecord)
    (e : PyError) (reps2 : List Report)
    (hjson : pyEndsWith f.name ".json" = true)
    (hfail : procUserFile stateName yearName f.name f.content = ⟨rs, some e⟩)
    (hcaught : e.caught = true)
    (hrest : procFiles procUserFile
        (REPO_DIR ++ "/data/aggregated/user/country/india/state")
        stateName yearName fs = .ok (rs2, reps2)) :
    process_aggregated_user_data REPO_DIR (some [⟨stateName, [⟨yearName, f :: fs⟩]⟩]) =
      .ok (rs ++ rs2,
        .fileError ((REPO_DIR ++ "/data/aggregated/user/country/india/state")
            ++ "/" ++ stateName ++ "/" ++ yearName ++ "/" ++ f.name) e :: reps2) := by
  simp [process_aggregated_user_data, procStates, procYears, procFiles,
    hjson, hfail, hcaught, hrest]

/-- A clean user payload for the file after the failing one. -/
def c2GoodFilePayload : Json :=
  .obj [("data", .obj [("aggregated",
    .obj [("registeredUsers", .num 7), ("appOpens", .num 8)])])]

/-- The sentinel record the clean second file emits. -/
def c2SecondRec : UserDeviceRecord :=
  ⟨"kerala", 2022, 2, .num 7, .num 8, .str "Other", .num 0, .num 0⟩

/-- C2 amended witness: with the failing file followed by a clean file,
the failing file contributes its one pre-failure record and is reported,
and the clean sibling file is still processed. -/
theorem C2_amended_witness :
    pyEndsWith "1.json" ".json" = true ∧
    procUserFile "kerala" "2022" "1.json" (some c2Payload) =
      ⟨[c2XiaomiRec], some .keyError⟩ ∧
    PyError.caught .keyError = true ∧
    procFiles procUserFile (REPO_DIR ++ "/data/aggregated/user/country/india/state")
      "kerala" "2022" [⟨"2.json", some c2GoodFilePayload⟩] = .ok ([c2SecondRec], []) ∧
    process_aggregated_user_data REPO_DIR
        (some [⟨"kerala", [⟨"2022", [⟨"1.json", some c2Payload⟩,
          ⟨"2.json", some c2GoodFilePayload⟩]⟩]⟩]) =
      .ok ([c2XiaomiRec] ++ [c2SecondRec],
        .fileError ((REPO_DIR ++ "/data/aggregated/user/country/india/state")
          ++ "/" ++ "kerala" ++ "/" ++ "2022" ++ "/" ++ "1.json") .keyError :: []) :=
  ⟨by rfl, by rfl, by rfl, by rfl,
   C2_amended_partial_contribution "kerala" "2022"
     ⟨"1.json", some c2Payload⟩ [⟨"2.json", some c2GoodFilePayload⟩]
     [c2XiaomiRec] [c2SecondRec] .keyError []
     (by rfl) (by rfl) (by rfl) (by rfl)⟩

/-! ## C3: malformed year/period names -/

/-- A tree with a well-formed state and a second state whose year
directory name `20x2` does not parse as an integer. -/
def c3Tree : List StateDir := [
  ⟨"goa", [⟨"2023", [⟨"1.json", some (.obj egTransPayload)⟩]⟩]⟩,
  ⟨"bihar", [⟨"20x2", [⟨"1.json", some (.obj egTransPayload)⟩]⟩]⟩]

/-- C3 counterexample: with a malformed year directory name the whole
extractor raises `ValueError` (`int('20x2')` is not caught by the
`except` tuple), so NO records are produced — not even the record of the
other, well-formed state, which the second conjunct shows would have
been extracted on its own.  This refutes "only that file's extraction
fails ... records from all other files and directories of the same
category are still produced". -/
theorem C3_counterexample_valueError :
    process_aggregated_transaction_data REPO_DIR (some c3Tree) =
      .error .valueError ∧
    process_aggregated_transaction_data REPO_DIR
        (some [⟨"goa", [⟨"2023", [⟨"1.json", some (.obj egTransPayload)⟩]⟩]⟩]) =
      .ok ([⟨"goa", 2023, 1, .str "Recharge", .num 100, .num 5000⟩], []) :=
  ⟨by rfl, by rfl⟩

/-- A qualifying entry makes the loop body evaluate `int(year)` first
and `int(quarter_file.split('.')[0])` second, before touching the
payload, so an unparseable year directory name — or a parseable year
combined with an unparseable period file name — raises `ValueError`. -/
theorem procTransEntry_valueError (state yearName fileName : String) (e : Json)
    (hname : pyInt yearName = .error .valueError ∨
      ∃ y, pyInt yearName = .ok y ∧ pyInt (stem fileName) = .error .valueError)
    (hq : qualifiesTrans e = true) :
    procTransEntry state yearName fileName e = .error .valueError := by
  match e with
  | .null | .bool _ | .num _ | .str _ | .arr _ => simp [qualifiesTrans] at hq
  | .obj fs =>
    simp only [qualifiesTrans] at hq
    cases hpi : fs.lookup "paymentInstruments" with
    | none => rw [hpi] at hq; simp at hq
    | some v =>
      rw [hpi] at hq
      simp only at hq
      rcases hname with hy | ⟨y, hy, hf⟩
      · simp [procTransEntry, Json.containsKey, Json.getKey, hpi, hq, hy]
      · simp [procTransEntry, Json.containsKey, Json.getKey, hpi, hq, hy, hf]

/-- C3 amended: a year directory or period file whose name does not
parse as an integer (an unparseable year, or a parseable year with an
unparseable period file stem) raises an uncaught `ValueError` as soon
as the first record of such a file is constructed; the exception
propagates out of the per-file loop and aborts the WHOLE category's
extraction — no records at all are returned, including those of every
other file and directory.  (Only `json.JSONDecodeError`, `KeyError` and
`IndexError` are isolated per-file.) -/
theorem C3_amended_valueError_aborts (stateName yearName fileName : String)
    (d e : Json) (es : List Json) (fs : List QFile) (ys : List YearDir)
    (ss : List StateDir)
    (hname : pyInt yearName = .error .valueError ∨
      ∃ y, pyInt yearName = .ok y ∧ pyInt (stem fileName) = .error .valueError)
    (hjson : pyEndsWith fileName ".json" = true)
    (hent : transEntries d = .ok (some (e :: es)))
    (hq : qualifiesTrans e = true) :
    process_aggregated_transaction_data REPO_DIR
      (some (⟨stateName, ⟨yearName, ⟨fileName, some d⟩ :: fs⟩ :: ys⟩ :: ss)) =
      .error .valueError := by
  have hfile : procTransFile stateName yearName fileName (some d) =
      ⟨[], some .valueError⟩ := by
    rw [procTransFile, hent]
    simp [procEntryList, procTransEntry_valueError stateName yearName fileName e hname hq]
  simp [process_aggregated_transaction_data, procStates, procYears, procFiles,
    hjson, hfile, PyError.caught]

/-- C3 amended witness, covering both triggers: a malformed year
directory name (`20x2`), and a well-formed year with a malformed period
file name (`qx.json`); each aborts the whole extraction with
`ValueError`. -/
theorem C3_amended_witness :
    pyInt "20x2" = .error .valueError ∧
    pyInt "2023" = .ok 2023 ∧
    pyInt (stem "qx.json") = .error .valueError ∧
    pyEndsWith "qx.json" ".json" = true ∧
    transEntries (.obj egTransPayload) = .ok (some [egTransEntry]) ∧
    qualifiesTrans egTransEntry = true ∧
    process_aggregated_transaction_data REPO_DIR
      (some (⟨"bihar", ⟨"20x2", ⟨"1.json", some (.obj egTransPayload)⟩ :: []⟩ :: []⟩ :: [])) =
      .error .valueError ∧
    process_aggregated_transaction_data REPO_DIR
      (some (⟨"bihar", ⟨"2023", ⟨"qx.json", some (.obj egTransPayload)⟩ :: []⟩ :: []⟩ :: [])) =
      .error .valueError :=
  ⟨by rfl, by rfl, by rfl, by rfl, by rfl, by rfl,
   C3_amended_valueError_aborts "bihar" "20x2" "1.json"
     (.obj egTransPayload) egTransEntry [] [] [] []
     (Or.inl (by rfl)) (by rfl) (by rfl) (by rfl),
   C3_amended_valueError_aborts "bihar" "2023" "qx.json"
     (.obj egTransPayload) egTransEntry [] [] [] []
     (Or.inr ⟨2023, by rfl, by rfl⟩) (by rfl) (by rfl) (by rfl)⟩

/-! ## C5: the query cache across store reloads -/

/-- A transaction payload with a single entry of the given amount. -/
def c5Payload (amt : Rat) : Json :=
  .obj [("data", .obj [("transactionData", .arr [
    .obj [("name", .str "Recharge"), ("paymentInstruments", .arr [
      .obj [("count", .num 1), ("amount", .num amt)]])]])])]

/-- A repository whose transaction category holds one file with the
given amount. -/
def c5Repo (amt : Rat) : Repo :=
  ⟨some [⟨"goa", [⟨"2023", [⟨"1.json", some (c5Payload amt)⟩]⟩]⟩], none, none⟩

/-- A fresh store with no tables. -/
def emptyDb : Database := ⟨none, none, none⟩

/-- A model of the SQLite engine for the query
`SELECT transaction_amount FROM aggregated_transaction`: one row per
record holding its amount; a missing table raises. -/
def selectAmounts : String → Database → Except String Df := fun _ db =>
  match db.aggregated_transaction with
  | some rs => .ok (rs.map (fun r => [r.transaction_amount]))
  | none => .error "no such table: aggregated_transaction"

/-- The query text used in the C5 scenario. -/
def c5Query : String := "SELECT transaction_amount FROM aggregated_transaction"

/-- The store after the first ingestion run (amount 5000). -/
def c5Db0 : Database := (setup_database (some (c5Repo 5000)) emptyDb).2

/-- The serving process's cache after querying the first store. -/
def c5Cache1 : QueryCache := (get_data_from_db selectAmounts c5Db0 [] c5Query).2.1

/-- The store after the ingestion re-run (amount 7000). -/
def c5Db1 : Database := (setup_database (some (c5Repo 7000)) c5Db0).2

/-- The single amount of a one-row, one-column result. -/
def firstAmount (df : Df) : Rat :=
  match df with
  | [[Json.num r]] => r
  | _ => 0

/-- C5 counterexample: the query answered 5000 before the reload; after
the store is reloaded by an ingestion re-run (new contents 7000), the
same query with the serving process's cache still answers the cached
pre-reload 5000, although a fresh evaluation against the post-reload
store answers 7000.  Nothing invalidates the cache on reload, refuting
"for every query executed after a reload, the result reflects the
post-reload store contents, never a cached pre-reload result". -/
theorem C5_counterexample_stale_cache :
    firstAmount (get_data_from_db selectAmounts c5Db0 [] c5Query).1 = 5000 ∧
    firstAmount (get_data_from_db selectAmounts c5Db1 c5Cache1 c5Query).1 = 5000 ∧
    firstAmount (get_data_from_db selectAmounts c5Db1 [] c5Query).1 = 7000 ∧
    (5000 : Rat) ≠ 7000 :=
  ⟨by rfl, by rfl, by rfl, by norm_num⟩

/-- C5 amended: the cache is keyed by the exact query text and lives for
the whole serving process; it is NEVER invalidated, so a query whose
text is already cached returns the cached result unchanged — regardless
of any store reload (`setup_database` re-run) in between. -/
theorem C5_amended_no_invalidation (runQuery : String → Database → Except String Df)
    (r : Option Repo) (db db' : Database) (cache : QueryCache) (q : String)
    (df : Df)
    (hcached : cache.lookup q = some df)
    (_hreload : db' = (setup_database r db).2) :
    get_data_from_db runQuery db' cache q = (df, cache, none) := by
  simp [get_data_from_db, hcached]

/-- C5 amended witness: the concrete reload scenario returns the cached
pre-reload row. -/
theorem C5_amended_witness :
    c5Cache1.lookup c5Query = some [[Json.num 5000]] ∧
    c5Db1 = (setup_database (some (c5Repo 7000)) c5Db0).2 ∧
    get_data_from_db selectAmounts c5Db1 c5Cache1 c5Query =
      ([[Json.num 5000]], c5Cache1, none) :=
  ⟨by rfl, rfl,
   C5_amended_no_invalidation selectAmounts (some (c5Repo 7000)) c5Db0 c5Db1
     c5Cache1 c5Query [[Json.num 5000]] (by rfl) rfl⟩

/-! ## C6: replace-on-load semantics of the store loader -/

/-- C6: when all three extractions succeed, `setup_database` loads each
table by full replacement: a non-empty dataset becomes the table's
entire new contents (`some ts`, independent of whatever the table held
before — drop-and-recreate, not row-level upsert), and an empty dataset
leaves the table exactly as it was (absent or unchanged). -/
theorem C6_loader_replace_semantics (r : Repo) (db : Database)
    (ts : List TransactionRecord) (us : List UserDeviceRecord)
    (ms : List MapTransactionRecord) (rp1 rp2 rp3 : List Report)
    (ht : process_aggregated_transaction_data REPO_DIR r.transSrc = .ok (ts, rp1))
    (hu : process_aggregated_user_data REPO_DIR r.userSrc = .ok (us, rp2))
    (hm : process_map_transaction_data REPO_DIR r.mapSrc = .ok (ms, rp3)) :
    setup_database (some r) db =
      (true,
       ⟨if ts.isEmpty then db.aggregated_transaction else some ts,
        if us.isEmpty then db.aggregated_user else some us,
        if ms.isEmpty then db.map_transaction else some ms⟩) := by
  simp [setup_database, ht, hu, hm, load_table]

/-- Stale rows that a previous run left in the store. -/
def c6OldTransRec : TransactionRecord := ⟨"old", 1, 1, .null, .null, .null⟩

/-- A stale user row kept because the user dataset comes out empty. -/
def c6OldUserRec : UserDeviceRecord := ⟨"old", 1, 1, .null, .null, .null, .null, .null⟩

/-- A store already holding stale transaction and user tables. -/
def c6Db : Database := ⟨some [c6OldTransRec], some [c6OldUserRec], none⟩

/-- The single record ingested by the C5/C6 scenario repository. -/
def c5TransRec : TransactionRecord := ⟨"goa", 2023, 1, .str "Recharge", .num 1, .num 5000⟩

/-- C6 witness: the non-empty transaction dataset replaces the stale
table wholesale; the empty user and map datasets leave the stale user
table and the absent map table untouched. -/
theorem C6_loader_witness :
    process_aggregated_transaction_data REPO_DIR (c5Repo 5000).transSrc =
      .ok ([c5TransRec], []) ∧
    process_aggregated_user_data REPO_DIR (c5Repo 5000).userSrc = .ok ([], []) ∧
    process_map_transaction_data REPO_DIR (c5Repo 5000).mapSrc = .ok ([], []) ∧
    setup_database (some (c5Repo 5000)) c6Db =
      (true,
       ⟨if ([c5TransRec] : List TransactionRecord).isEmpty then
          c6Db.aggregated_transaction else some [c5TransRec],
        if ([] : List UserDeviceRecord).isEmpty then c6Db.aggregated_user else some [],
        if ([] : List MapTransactionRecord).isEmpty then c6Db.map_transaction else some []⟩) ∧
    setup_database (some (c5Repo 5000)) c6Db =
      (true, ⟨some [c5TransRec], some [c6OldUserRec], none⟩) :=
  ⟨by rfl, by rfl, by rfl,
   C6_loader_replace_semantics (c5Repo 5000) c6Db [c5TransRec] [] [] [] [] []
     (by rfl) (by rfl) (by rfl),
   by rfl⟩

/-! ## C7: missing category root paths -/

/-- C7 counterexample: when the user or map category root path does not
exist, the extractor returns an empty dataset with NO diagnostic at all
(the report list is empty) — only the transaction extractor prints
"Path not found".  This refutes "reports ... that the path was not
found" as stated for every category. -/
theorem C7_counterexample_silent_categories :
    process_aggregated_user_data REPO_DIR none = .ok ([], []) ∧
    process_map_transaction_data REPO_DIR none = .ok ([], []) :=
  ⟨by rfl, by rfl⟩

/-- C7 amended: a category whose root subpath is missing yields an empty
dataset and never raises; the TRANSACTION extractor reports the missing
path, while the user and map extractors return silently.  Ingestion of
the other categories proceeds unaffected: with the transaction source
missing, `setup_database` still succeeds and loads the other two
categories normally (the transaction table is left as it was). -/
theorem C7_amended_missing_path (us ms : Option (List StateDir)) (db : Database)
    (usRecs : List UserDeviceRecord) (msRecs : List MapTransactionRecord)
    (rp2 rp3 : List Report)
    (hu : process_aggregated_user_data REPO_DIR us = .ok (usRecs, rp2))
    (hm : process_map_transaction_data REPO_DIR ms = .ok (msRecs, rp3)) :
    process_aggregated_transaction_data REPO_DIR none =
      .ok ([], [.pathNotFound "pulse/data/aggregated/transaction/country/india/state"]) ∧
    process_aggregated_user_data REPO_DIR none = .ok ([], []) ∧
    process_map_transaction_data REPO_DIR none = .ok ([], []) ∧
    setup_database (some ⟨none, us, ms⟩) db =
      (true, ⟨db.aggregated_transaction,
              load_table usRecs db.aggregated_user,
              load_table msRecs db.map_transaction⟩) := by
  refine ⟨by rfl, by rfl, by rfl, ?_⟩
  simp [setup_database, process_aggregated_transaction_data, hu, hm, load_table]

/-- A one-file user category tree for the C7 witness. -/
def c7UserTree : List StateDir :=
  [⟨"kerala", [⟨"2022", [⟨"2.json", some c2GoodFilePayload⟩]⟩]⟩]

/-- C7 amended witness: transaction source missing, user category
present, map category also missing — setup succeeds and the user table
is loaded. -/
theorem C7_amended_witness :
    process_aggregated_user_data REPO_DIR (some c7UserTree) = .ok ([c2SecondRec], []) ∧
    process_map_transaction_data REPO_DIR none = .ok ([], []) ∧
    setup_database (some ⟨none, some c7UserTree, none⟩) emptyDb =
      (true, ⟨emptyDb.aggregated_transaction,
              load_table [c2SecondRec] emptyDb.aggregated_user,
              load_table ([] : List MapTransactionRecord) emptyDb.map_transaction⟩) :=
  ⟨by rfl, by rfl,
   (C7_amended_missing_path (some c7UserTree) none emptyDb [c2SecondRec] [] [] []
     (by rfl) (by rfl)).2.2.2⟩

/-! ## C8: query failures -/

/-- C8: for every query not already cached whose execution against the
store raises (missing table, malformed SQL, any database error), the
service returns the empty DataFrame and reports the error message to the
caller via `st.error`.  `get_data_from_db` is a total function — the
`except` swallows the exception, so the failure can never propagate as
an exception that crashes the serving process. -/
theorem C8_query_failure_empty_result (runQuery : String → Database → Except String Df)
    (db : Database) (cache : QueryCache) (q errMsg : String)
    (hmiss : cache.lookup q = none)
    (hfail : runQuery q db = .error errMsg) :
    get_data_from_db runQuery db cache q =
      ([], (q, []) :: cache, some ("Database error: " ++ errMsg)) := by
  simp [get_data_from_db, hmiss, hfail]

/-- C8 witness: querying the transaction table of an empty store (the
table is absent, so the engine raises) returns the empty result plus the
reported error. -/
theorem C8_query_failure_witness :
    ([] : QueryCache).lookup c5Query = none ∧
    selectAmounts c5Query emptyDb = .error "no such table: aggregated_transaction" ∧
    get_data_from_db selectAmounts emptyDb [] c5Query =
      ([], (c5Query, []) :: [],
       some ("Database error: " ++ "no such table: aggregated_transaction")) :=
  ⟨by rfl, by rfl,
   C8_query_failure_empty_result selectAmounts emptyDb [] c5Query
     "no such table: aggregated_transaction" (by rfl) (by rfl)⟩

/-! ## C9: idempotence of ingestion -/

/-- Replacing with the same dataset twice equals replacing once. -/
theorem load_table_idem {α : Type} (df : List α) (t : Option (List α)) :
    load_table df (load_table df t) = load_table df t := by
  cases h : df.isEmpty <;> simp [load_table, h]

/-- C9: running ingestion twice over the same unchanged source tree
yields identical table contents: the store after the second
`setup_database` run equals the store after the first, in every case
(success, missing repository, or an uncaught extraction error at any
stage). -/
theorem C9_ingestion_idempotent (repo : Option Repo) (db : Database) :
    (setup_database repo (setup_database repo db).2).2 = (setup_database repo db).2 := by
  cases repo with
  | none => rfl
  | some r =>
    cases ht : process_aggregated_transaction_data REPO_DIR r.transSrc with
    | error e => simp [setup_database, ht]
    | ok p =>
      obtain ⟨ts, rp1⟩ := p
      cases hu : process_aggregated_user_data REPO_DIR r.userSrc with
      | error e => simp [setup_database, ht, hu, load_table_idem]
      | ok p2 =>
        obtain ⟨us, rp2⟩ := p2
        cases hm : process_map_transaction_data REPO_DIR r.mapSrc with
        | error e => simp [setup_database, ht, hu, hm, load_table_idem]
        | ok p3 =>
          obtain ⟨ms, rp3⟩ := p3
          simp [setup_database, ht, hu, hm, load_table_idem]

/-! ## C10: silently skipped payloads without the expected substructure -/

/-- A successfully parsed payload that is a dict lacking the transaction
substructure: no `data` key, or a `data` dict without `transactionData`. -/
def lacksTransSubstructure (d : Json) : Bool :=
  match d with
  | .obj fs =>
    match fs.lookup "data" with
    | none => true
    | some (Json.obj ds) => (ds.lookup "transactionData").isNone
    | some _ => false
  | _ => false

/-- A successfully parsed payload that is a dict lacking the hover
substructure: no `data` key, or a `data` dict without `hoverDataList`. -/
def lacksMapSubstructure (d : Json) : Bool :=
  match d with
  | .obj fs =>
    match fs.lookup "data" with
    | none => true
    | some (Json.obj ds) => (ds.lookup "hoverDataList").isNone
    | some _ => false
  | _ => false

/-- The transaction guard evaluates to false (no raise) on a payload
lacking the substructure. -/
theorem transEntries_lacking (d : Json) (h : lacksTransSubstructure d = true) :
    transEntries d = .ok none := by
  match d with
  | .null | .bool _ | .num _ | .str _ | .arr _ => simp [lacksTransSubstructure] at h
  | .obj fs =>
    simp only [lacksTransSubstructure] at h
    cases hd : fs.lookup "data" with
    | none => simp [transEntries, Json.containsKey, hd]
    | some v =>
      rw [hd] at h
      cases v with
      | obj ds =>
        simp only [Option.isNone_iff_eq_none] at h
        simp [transEntries, Json.containsKey, Json.getKey, hd, h]
      | null => simp at h
      | bool b => simp at h
      | num n => simp at h
      | str s => simp at h
      | arr xs => simp at h

/-- The hover guard evaluates to false (no raise) on a payload lacking
the substructure. -/
theorem mapEntries_lacking (d : Json) (h : lacksMapSubstructure d = true) :
    mapEntries d = .ok none := by
  match d with
  | .null | .bool _ | .num _ | .str _ | .arr _ => simp [lacksMapSubstructure] at h
  | .obj fs =>
    simp only [lacksMapSubstructure] at h
    cases hd : fs.lookup "data" with
    | none => simp [mapEntries, Json.containsKey, hd]
    | some v =>
      rw [hd] at h
      cases v with
      | obj ds =>
        simp only [Option.isNone_iff_eq_none] at h
        simp [mapEntries, Json.containsKey, Json.getKey, hd, h]
      | null => simp at h
      | bool b => simp at h
      | num n => simp at h
      | str s => simp at h
      | arr xs => simp at h

/-- C10: a successfully parsed file whose dict payload lacks the
expected substructure key (no transaction-data list under `data`; no
hover-detail list under `data`) contributes zero records AND zero error
reports — the file loop's outcome over the remaining files is unchanged,
i.e. the file is skipped silently and extraction continues, unlike parse
failures and missing required keys which are reported. -/
theorem C10_missing_substructure_silent (path state yearName : String)
    (fname1 fname2 : String) (d dm : Json) (fs fsm : List QFile)
    (h1 : pyEndsWith fname1 ".json" = true)
    (h2 : pyEndsWith fname2 ".json" = true)
    (ht : lacksTransSubstructure d = true)
    (hm : lacksMapSubstructure dm = true) :
    procFiles procTransFile path state yearName (⟨fname1, some d⟩ :: fs) =
      procFiles procTransFile path state yearName fs ∧
    procFiles procMapFile path state yearName (⟨fname2, some dm⟩ :: fsm) =
      procFiles procMapFile path state yearName fsm := by
  constructor
  · have hfile : procTransFile state yearName fname1 (some d) = ⟨[], none⟩ := by
      rw [procTransFile, transEntries_lacking d ht]
    cases hre : procFiles procTransFile path state yearName fs with
    | error e => simp [procFiles, h1, hfile, hre]
    | ok p =>
      obtain ⟨rs, reps⟩ := p
      simp [procFiles, h1, hfile, hre]
  · have hfile : procMapFile state yearName fname2 (some dm) = ⟨[], none⟩ := by
      rw [procMapFile, mapEntries_lacking dm hm]
    cases hre : procFiles procMapFile path state yearName fsm with
    | error e => simp [procFiles, h2, hfile, hre]
    | ok p =>
      obtain ⟨rs, reps⟩ := p
      simp [procFiles, h2, hfile, hre]

/-- A parsed payload whose `data` dict has no `transactionData`. -/
def c10TransPayload : Json := .obj [("data", .obj [("other", .null)])]

/-- A parsed payload with no `data` key at all. -/
def c10MapPayload : Json := .obj [("meta", .str "x")]

/-- C10 witness: both payloads are skipped silently, leaving the file
loop's outcome equal to that of the empty remaining file list. -/
theorem C10_missing_substructure_witness :
    lacksTransSubstructure c10TransPayload = true ∧
    lacksMapSubstructure c10MapPayload = true ∧
    procFiles procTransFile "p" "goa" "2023" [⟨"1.json", some c10TransPayload⟩] =
      procFiles procTransFile "p" "goa" "2023" [] ∧
    procFiles procMapFile "p" "goa" "2023" [⟨"1.json", some c10MapPayload⟩] =
      procFiles procMapFile "p" "goa" "2023" [] :=
  ⟨by rfl, by rfl,
   (C10_missing_substructure_silent "p" "goa" "2023" "1.json" "1.json"
     c10TransPayload c10MapPayload [] []
     (by rfl) (by rfl) (by rfl) (by rfl)).1,
   (C10_missing_substructure_silent "p" "goa" "2023" "1.json" "1.json"
     c10TransPayload c10MapPayload [] []
     (by rfl) (by rfl) (by rfl) (by rfl)).2⟩

end PhonePe
